import Mathlib

/-!
Shallow embedding of the favourites backend of the Pokédex repository
(src/backend/controllers/favouriteController.js) together with the
relational state it operates on, and proofs of the behavioural contract
stated in the specification.

The database is modelled as explicit lists of rows.  Each Express handler
becomes a pure function from the request parameters and the database to a
result (the HTTP response it sends, the structured error it forwards to
the error middleware via next(new AppError(...)), or a thrown runtime
error) paired with the database after the call.
-/

namespace Pokedex

/-- A row of the Pokémon catalog table; only the columns the favourites
controller touches (id, name) are modelled. -/
structure Pokemon where
  id : Nat
  name : String
deriving DecidableEq

/-- A row of the favourites join table: (user_id, pokemon_id). -/
structure FavouriteRow where
  user_id : Nat
  pokemon_id : Nat
deriving DecidableEq

/-- A catalog entry projected to the attributes selected by readFavourite
(attributes: ["id", "name"]). -/
structure PokemonSummary where
  id : Nat
  name : String
deriving DecidableEq

/-- The relational store: user ids, the Pokémon catalog and the favourites
join table. -/
structure DB where
  users : List Nat
  pokemons : List Pokemon
  favourites : List FavouriteRow
deriving DecidableEq

/-- new AppError(message, statusCode), as constructed by the controller. -/
structure AppError where
  message : String
  statusCode : Nat
deriving DecidableEq

/-- The JSON bodies the controller passes to res.json. -/
inductive Body where
  | favData (f : FavouriteRow)
  | userPokemons (ps : List PokemonSummary)
  | message (status : String) (msg : String)
deriving DecidableEq

/-- Outcome of one handler invocation: a response sent with res.status(c).json,
a structured error forwarded with next(new AppError(...)), or an uncaught
runtime exception. -/
inductive HResult where
  | ok (statusCode : Nat) (body : Option Body)
  | err (e : AppError)
  | thrown (msg : String)
deriving DecidableEq

/-- Pokemon.findByPk(pokemon_id): primary-key lookup in the catalog. -/
def findPokemonByPk (db : DB) (pid : Nat) : Option Pokemon :=
  db.pokemons.find? (fun q => q.id == pid)

/-- The where-clause of Favourite.findOne: user_id and pokemon_id both match. -/
def favMatches (uid pid : Nat) (f : FavouriteRow) : Bool :=
  f.user_id == uid && f.pokemon_id == pid

/-- Favourite.findOne({ where: { user_id, pokemon_id } }). -/
def findFavourite (db : DB) (uid pid : Nat) : Option FavouriteRow :=
  db.favourites.find? (favMatches uid pid)

/-- Deletion of the single row found by findOne (favourite.destroy()):
removes the first row satisfying the predicate. -/
def removeFirst (p : α → Bool) : List α → List α
  | [] => []
  | x :: xs => if p x then xs else x :: removeFirst p xs

/-- Error of createFavourite when the catalog entry is absent (line 33). -/
def pokemonNotFoundError (pid : Nat) : AppError :=
  ⟨"Pokémon with id " ++ toString pid ++ " not found", 404⟩

/-- Error of createFavourite when the pair is already favourited (lines 46-51);
the spec's Conflict taxon, sent with HTTP status 400. -/
def alreadyLikedError (uid pid : Nat) : AppError :=
  ⟨"User with id " ++ toString uid ++ " has already liked the Pokémon with id "
      ++ toString pid, 400⟩

/-- Error of readFavourite when the user has no favourites (lines 101-106). -/
def noFavouritesError (uid : Nat) : AppError :=
  ⟨"No favourite Pokémon found for user with id " ++ toString uid, 404⟩

/-- Error of deleteFavourite when the pair is not favourited (lines 143-148). -/
def notLikedError (uid pid : Nat) : AppError :=
  ⟨"User " ++ toString uid ++ " doesn't like pokemon with id " ++ toString pid, 404⟩

/-- Body message of deleteFavourite's 204 response (line 157; the source
template has no space between "id" and the interpolated pokemon_id). -/
def deleteMessage (uid pid : Nat) : String :=
  "User " ++ toString uid ++ " no longer likes pokemon with id" ++ toString pid

/-- createFavourite (lines 24-70): checks the catalog entry exists, checks the
pair is not already favourited, inserts the row and answers 201.  The
"if (!favourite)" guard of lines 61-63 is unreachable: Favourite.create
resolves to the created (truthy) record, so it is not represented. -/
def createFavourite (uid pid : Nat) (db : DB) : HResult × DB :=
  match findPokemonByPk db pid with
  | none => (HResult.err (pokemonNotFoundError pid), db)
  | some _ =>
    match findFavourite db uid pid with
    | some _ => (HResult.err (alreadyLikedError uid pid), db)
    | none =>
      let row : FavouriteRow := ⟨uid, pid⟩
      (HResult.ok 201 (some (Body.favData row)),
        { db with favourites := db.favourites ++ [row] })

/-- The list of catalog entries joined to a user's favourite rows, projected
to id and name: the include of User.findByPk in readFavourite (lines 85-97). -/
def joinFavs (ps : List Pokemon) (uid : Nat) : List FavouriteRow → List PokemonSummary
  | [] => []
  | f :: fs =>
    if f.user_id == uid then
      match ps.find? (fun q => q.id == f.pokemon_id) with
      | some q => ⟨q.id, q.name⟩ :: joinFavs ps uid fs
      | none => joinFavs ps uid fs
    else joinFavs ps uid fs

/-- readFavourite (lines 83-114): loads the user with its joined pokemons and
answers 200, or forwards a 404 error when the join is empty.  When
User.findByPk returns null (the acting user's row is absent), line 100
evaluates null.pokemons and the handler throws a TypeError instead of
producing a structured error. -/
def readFavourite (uid : Nat) (db : DB) : HResult :=
  match db.users.find? (fun u => u == uid) with
  | none => HResult.thrown "TypeError: Cannot read properties of null (reading pokemons)"
  | some _ =>
    if (joinFavs db.pokemons uid db.favourites).isEmpty then
      HResult.err (noFavouritesError uid)
    else
      HResult.ok 200 (some (Body.userPokemons (joinFavs db.pokemons uid db.favourites)))

/-- deleteFavourite (lines 129-159): answers 404 when the pair is not
favourited, otherwise destroys the found row and calls
res.status(204).json({status, message}) - a 204 with a JSON body. -/
def deleteFavourite (uid pid : Nat) (db : DB) : HResult × DB :=
  match findFavourite db uid pid with
  | none => (HResult.err (notLikedError uid pid), db)
  | some _ =>
    (HResult.ok 204 (some (Body.message "Success" (deleteMessage uid pid))),
      { db with favourites := removeFirst (favMatches uid pid) db.favourites })

/-- Number of favourite rows stored for a given (user_id, pokemon_id) pair. -/
def pairCount (db : DB) (uid pid : Nat) : Nat :=
  (db.favourites.filter (favMatches uid pid)).length

/-- The uniqueness invariant: at most one Favourite row per pair. -/
def UniqueInv (db : DB) : Prop :=
  ∀ uid pid, pairCount db uid pid ≤ 1

/-- The favourite rows belonging to one user. -/
def userFavRows (db : DB) (uid : Nat) : List FavouriteRow :=
  db.favourites.filter (fun f => f.user_id == uid)

/-- Referential integrity of the favourites table: every favourite row points
at an existing catalog entry. -/
def RefsOk (db : DB) : Prop :=
  ∀ f ∈ db.favourites, (findPokemonByPk db f.pokemon_id).isSome

/-- Number of occurrences of a summary in a listed result. -/
def countOcc (s : PokemonSummary) : List PokemonSummary → Nat
  | [] => 0
  | x :: xs => (if x = s then 1 else 0) + countOcc s xs

/-- An add/remove favourite operation, for reasoning about sequences of calls. -/
inductive FavOp where
  | add (uid pid : Nat)
  | remove (uid pid : Nat)

/-- Effect of one operation on the store. -/
def applyOp (db : DB) : FavOp → DB
  | FavOp.add uid pid => (createFavourite uid pid db).2
  | FavOp.remove uid pid => (deleteFavourite uid pid db).2

/-- Effect of a sequence of operations on the store. -/
def applyOps (db : DB) : List FavOp → DB
  | [] => db
  | op :: ops => applyOps (applyOp db op) ops

/-! ### Basic lemmas about the store operations -/

theorem filter_eq_nil_of_find?_none {p : α → Bool} {l : List α}
    (h : l.find? p = none) : l.filter p = [] :=
  List.filter_eq_nil_iff.mpr (List.find?_eq_none.mp h)

theorem find?_append_of_none {p : α → Bool} {l1 : List α} (l2 : List α)
    (h : l1.find? p = none) : (l1 ++ l2).find? p = l2.find? p := by
  induction l1 with
  | nil => rfl
  | cons x xs ih =>
    cases hx : p x with
    | true => simp [List.find?_cons, hx] at h
    | false =>
      simp only [List.find?_cons, hx] at h
      simp only [List.cons_append, List.find?_cons, hx]
      exact ih h

theorem pairCount_append (db : DB) (l : List FavouriteRow) (uid pid : Nat) :
    pairCount { db with favourites := db.favourites ++ l } uid pid =
      pairCount db uid pid + (l.filter (favMatches uid pid)).length := by
  simp [pairCount, List.filter_append]

theorem pairCount_eq_zero_of_none {db : DB} {uid pid : Nat}
    (h : findFavourite db uid pid = none) : pairCount db uid pid = 0 := by
  unfold pairCount
  rw [filter_eq_nil_of_find?_none h]
  rfl

theorem one_le_pairCount_of_some {db : DB} {uid pid : Nat} {f : FavouriteRow}
    (h : findFavourite db uid pid = some f) : 1 ≤ pairCount db uid pid := by
  have hmem : f ∈ db.favourites.filter (favMatches uid pid) :=
    List.mem_filter.mpr ⟨List.mem_of_find?_eq_some h, List.find?_some h⟩
  exact List.length_pos.mpr (List.ne_nil_of_mem hmem)

theorem length_filter_removeFirst_le (p q : α → Bool) (l : List α) :
    ((removeFirst p l).filter q).length ≤ (l.filter q).length := by
  induction l with
  | nil => exact le_refl 0
  | cons x xs ih =>
    unfold removeFirst
    rw [List.filter_cons]
    split_ifs with hx hq hq
    · exact Nat.le_succ _
    · exact le_refl _
    · rw [List.filter_cons, if_pos hq]
      exact Nat.succ_le_succ ih
    · rw [List.filter_cons, if_neg hq]
      exact ih

/-! ### C3: adding a favourite for a nonexistent Pokémon -/

/-- C3: when the pokemon_id references no catalog entry, createFavourite
answers the 404 not-found error and the favourites table is unchanged. -/
theorem createFavourite_C3_notFound (uid pid : Nat) (db : DB)
    (hp : findPokemonByPk db pid = none) :
    createFavourite uid pid db = (HResult.err (pokemonNotFoundError pid), db) := by
  simp [createFavourite, hp]

theorem createFavourite_C3_notFound_witness :
    createFavourite 7 99 ⟨[7], [⟨25, "Pikachu"⟩], []⟩ =
      (HResult.err (pokemonNotFoundError 99), ⟨[7], [⟨25, "Pikachu"⟩], []⟩) :=
  createFavourite_C3_notFound 7 99 ⟨[7], [⟨25, "Pikachu"⟩], []⟩ (by decide)

/-! ### C5: removing a favourite that does not exist -/

/-- C5: when no Favourite row exists for the pair, deleteFavourite answers the
404 error and the favourites table is unchanged. -/
theorem deleteFavourite_C5_notFound (uid pid : Nat) (db : DB)
    (hf : findFavourite db uid pid = none) :
    deleteFavourite uid pid db = (HResult.err (notLikedError uid pid), db) := by
  simp [deleteFavourite, hf]

theorem deleteFavourite_C5_notFound_witness :
    deleteFavourite 7 25 ⟨[7], [⟨25, "Pikachu"⟩], [⟨8, 25⟩]⟩ =
      (HResult.err (notLikedError 7 25), ⟨[7], [⟨25, "Pikachu"⟩], [⟨8, 25⟩]⟩) :=
  deleteFavourite_C5_notFound 7 25 ⟨[7], [⟨25, "Pikachu"⟩], [⟨8, 25⟩]⟩ (by decide)

/-! ### C6: successful removal - the 204 response carries a JSON body -/

/-- C6: on an existing favourite (7, 25), deleteFavourite deletes exactly that
row and answers status 204 - but res.status(204).json attaches a JSON body
(status and message fields), contradicting "no body content". -/
theorem deleteFavourite_C6_body_on_204 :
    deleteFavourite 7 25 ⟨[7], [⟨25, "Pikachu"⟩], [⟨7, 25⟩, ⟨7, 3⟩]⟩ =
      (HResult.ok 204
          (some (Body.message "Success" "User 7 no longer likes pokemon with id25")),
        ⟨[7], [⟨25, "Pikachu"⟩], [⟨7, 3⟩]⟩) := by
  rfl

/-! ### C1: the uniqueness invariant is preserved by every operation -/

theorem uniqueInv_createFavourite {db : DB} (h : UniqueInv db) (uid pid : Nat) :
    UniqueInv (createFavourite uid pid db).2 := by
  unfold createFavourite
  cases hpk : findPokemonByPk db pid with
  | none => exact h
  | some p =>
    cases hf : findFavourite db uid pid with
    | some f => exact h
    | none =>
      intro u q
      simp only
      rw [pairCount_append]
      rw [List.filter_cons, List.filter_nil]
      split_ifs with hm
      · unfold favMatches at hm
        simp only [Bool.and_eq_true, beq_iff_eq] at hm
        obtain ⟨hu, hq⟩ := hm
        subst hu
        subst hq
        rw [pairCount_eq_zero_of_none hf]
        simp
      · rw [List.length_nil]
        exact h u q

theorem uniqueInv_deleteFavourite {db : DB} (h : UniqueInv db) (uid pid : Nat) :
    UniqueInv (deleteFavourite uid pid db).2 := by
  unfold deleteFavourite
  cases hf : findFavourite db uid pid with
  | none => exact h
  | some f =>
    intro u q
    simp only
    calc ((removeFirst (favMatches uid pid) db.favourites).filter (favMatches u q)).length
        ≤ (db.favourites.filter (favMatches u q)).length :=
          length_filter_removeFirst_le (favMatches uid pid) (favMatches u q) db.favourites
      _ ≤ 1 := h u q

theorem uniqueInv_applyOps {db : DB} (h : UniqueInv db) :
    ∀ ops : List FavOp, UniqueInv (applyOps db ops) := by
  intro ops
  induction ops generalizing db with
  | nil => exact h
  | cons op ops ih =>
    cases op with
    | add uid pid => exact ih (uniqueInv_createFavourite h uid pid)
    | remove uid pid => exact ih (uniqueInv_deleteFavourite h uid pid)

/-- C1: starting from any store satisfying the uniqueness invariant, every
sequence of add/remove operations keeps at most one Favourite row per
(user_id, pokemon_id) pair (hence the invariant holds after each operation of
the sequence); moreover createFavourite leaves the store unchanged when a row
for the pair already exists, and deleteFavourite leaves it unchanged when no
row for the pair exists. -/
theorem favourites_C1_invariant (db : DB) (hinv : UniqueInv db) :
    (∀ ops : List FavOp, UniqueInv (applyOps db ops)) ∧
    (∀ uid pid, (findFavourite db uid pid).isSome → (createFavourite uid pid db).2 = db) ∧
    (∀ uid pid, findFavourite db uid pid = none → (deleteFavourite uid pid db).2 = db) := by
  refine ⟨uniqueInv_applyOps hinv, ?_, ?_⟩
  · intro uid pid hs
    obtain ⟨f, hf⟩ := Option.isSome_iff_exists.mp hs
    cases hpk : findPokemonByPk db pid with
    | none => simp [createFavourite, hpk]
    | some p => simp [createFavourite, hpk, hf]
  · intro uid pid hf
    simp [deleteFavourite, hf]

theorem favourites_C1_invariant_witness :
    UniqueInv (applyOps ⟨[7], [⟨25, "Pikachu"⟩], []⟩
      [FavOp.add 7 25, FavOp.add 7 25, FavOp.remove 7 25, FavOp.add 7 3]) :=
  (favourites_C1_invariant ⟨[7], [⟨25, "Pikachu"⟩], []⟩
      (fun u p => by simp [pairCount])).1
    [FavOp.add 7 25, FavOp.add 7 25, FavOp.remove 7 25, FavOp.add 7 3]

/-! ### C2: adding the same favourite twice -/

/-- C2: starting from a store with at most one row per pair and an existing
catalog entry pid, calling createFavourite twice for (uid, pid) leaves exactly
one stored row for the pair, the second call answers the duplicate error (the
spec's Conflict taxon, HTTP 400), and the second call leaves the store
unchanged. -/
theorem favourites_C2_double_add (uid pid : Nat) (db : DB)
    (hinv : UniqueInv db) (hp : (findPokemonByPk db pid).isSome) :
    (createFavourite uid pid (createFavourite uid pid db).2).1 =
        HResult.err (alreadyLikedError uid pid) ∧
    (createFavourite uid pid (createFavourite uid pid db).2).2 =
        (createFavourite uid pid db).2 ∧
    pairCount (createFavourite uid pid (createFavourite uid pid db).2).2 uid pid = 1 := by
  obtain ⟨p, hpk⟩ := Option.isSome_iff_exists.mp hp
  cases hf : findFavourite db uid pid with
  | some f =>
    have h1 : (createFavourite uid pid db).2 = db := by
      simp [createFavourite, hpk, hf]
    rw [h1]
    have hcount : pairCount db uid pid = 1 :=
      Nat.le_antisymm (hinv uid pid) (one_le_pairCount_of_some hf)
    refine ⟨?_, ?_, ?_⟩
    · simp [createFavourite, hpk, hf]
    · simp [createFavourite, hpk, hf]
    · rw [show (createFavourite uid pid db).2 = db from h1]
      exact hcount
  | none =>
    have h1 : (createFavourite uid pid db).2 =
        { db with favourites := db.favourites ++ [⟨uid, pid⟩] } := by
      simp [createFavourite, hpk, hf]
    rw [h1]
    have hpk1 : findPokemonByPk { db with favourites := db.favourites ++ [⟨uid, pid⟩] } pid
        = some p := hpk
    have hf1 : findFavourite { db with favourites := db.favourites ++ [⟨uid, pid⟩] } uid pid
        = some ⟨uid, pid⟩ := by
      unfold findFavourite
      rw [show ({ db with favourites := db.favourites ++ [⟨uid, pid⟩] } : DB).favourites
            = db.favourites ++ [⟨uid, pid⟩] from rfl]
      rw [find?_append_of_none _ hf]
      simp [List.find?_cons, favMatches]
    refine ⟨?_, ?_, ?_⟩
    · simp [createFavourite, hpk1, hf1]
    · simp [createFavourite, hpk1, hf1]
    · rw [show (createFavourite uid pid { db with favourites := db.favourites ++ [⟨uid, pid⟩] }).2
            = { db with favourites := db.favourites ++ [⟨uid, pid⟩] } by
          simp [createFavourite, hpk1, hf1]]
      rw [pairCount_append, pairCount_eq_zero_of_none hf]
      simp [favMatches]

theorem favourites_C2_double_add_witness :
    (createFavourite 7 25 (createFavourite 7 25 ⟨[7], [⟨25, "Pikachu"⟩], []⟩).2).1 =
        HResult.err (alreadyLikedError 7 25) ∧
    (createFavourite 7 25 (createFavourite 7 25 ⟨[7], [⟨25, "Pikachu"⟩], []⟩).2).2 =
        (createFavourite 7 25 ⟨[7], [⟨25, "Pikachu"⟩], []⟩).2 ∧
    pairCount (createFavourite 7 25 (createFavourite 7 25 ⟨[7], [⟨25, "Pikachu"⟩], []⟩).2).2
        7 25 = 1 :=
  favourites_C2_double_add 7 25 ⟨[7], [⟨25, "Pikachu"⟩], []⟩
    (fun u p => by simp [pairCount]) (by decide)

/-! ### Lemmas about the join produced by readFavourite -/

theorem countOcc_joinFavs (ps : List Pokemon) (uid pid : Nat) (p : Pokemon)
    (hp : ps.find? (fun q => q.id == pid) = some p) (favs : List FavouriteRow) :
    countOcc ⟨p.id, p.name⟩ (joinFavs ps uid favs) =
      (favs.filter (favMatches uid pid)).length := by
  have hpid : p.id = pid := by
    have h := List.find?_some hp
    simpa using h
  induction favs with
  | nil => rfl
  | cons f fs ih =>
    unfold joinFavs
    rw [List.filter_cons]
    cases hu : f.user_id == uid with
    | false =>
      have hfm : favMatches uid pid f = false := by
        unfold favMatches
        rw [hu, Bool.false_and]
      rw [if_neg Bool.false_ne_true, hfm, if_neg Bool.false_ne_true]
      exact ih
    | true =>
      rw [if_pos rfl]
      by_cases hpp : f.pokemon_id = pid
      · have hfm : favMatches uid pid f = true := by
          unfold favMatches
          rw [hu, hpp, Bool.true_and, beq_self_eq_true]
        rw [hfm, if_pos rfl]
        rw [hpp, hp]
        unfold countOcc
        rw [if_pos rfl, ih, List.length_cons]
        omega
      · have hfm : favMatches uid pid f = false := by
          unfold favMatches
          rw [hu, Bool.true_and]
          exact beq_eq_false_iff_ne.mpr hpp
        rw [hfm, if_neg Bool.false_ne_true]
        cases hfind : ps.find? (fun q => q.id == f.pokemon_id) with
        | none => exact ih
        | some q =>
          have hq : q.id = f.pokemon_id := by
            have h := List.find?_some hfind
            simpa using h
          unfold countOcc
          rw [if_neg ?_, ih]
          · simp
          · intro he
            apply hpp
            have h3 : q.id = p.id := congrArg PokemonSummary.id he
            omega

theorem length_joinFavs (ps : List Pokemon) (uid : Nat) (favs : List FavouriteRow)
    (h : ∀ f ∈ favs, (ps.find? (fun q => q.id == f.pokemon_id)).isSome) :
    (joinFavs ps uid favs).length = (favs.filter (fun f => f.user_id == uid)).length := by
  induction favs with
  | nil => rfl
  | cons f fs ih =>
    have hfs := fun g hg => h g (List.mem_cons_of_mem f hg)
    unfold joinFavs
    rw [List.filter_cons]
    cases hu : f.user_id == uid with
    | false =>
      rw [if_neg Bool.false_ne_true, if_neg Bool.false_ne_true]
      exact ih hfs
    | true =>
      rw [if_pos rfl, if_pos rfl]
      obtain ⟨q, hq⟩ := Option.isSome_iff_exists.mp (h f (List.mem_cons_self f fs))
      rw [hq, List.length_cons, List.length_cons, ih hfs]

theorem joinFavs_eq_nil (ps : List Pokemon) (uid : Nat) (favs : List FavouriteRow)
    (h : favs.filter (fun f => f.user_id == uid) = []) :
    joinFavs ps uid favs = [] := by
  induction favs with
  | nil => rfl
  | cons f fs ih =>
    cases hu : f.user_id == uid with
    | true =>
      rw [List.filter_cons, if_pos hu] at h
      exact absurd h (List.cons_ne_nil f _)
    | false =>
      rw [List.filter_cons, if_neg (by simp [hu])] at h
      unfold joinFavs
      rw [if_neg (by simp [hu])]
      exact ih h

/-! ### C4: listing with zero favourites is an error, not an empty list -/

/-- C4: for a user present in the users table, over a store whose favourite
rows all reference existing catalog entries, readFavourite answers the 404
no-favourites error exactly when the user has zero favourite rows, and
answers 200 with the joined list exactly when the user has at least one. -/
theorem readFavourite_C4_empty_is_error (uid : Nat) (db : DB)
    (hu : uid ∈ db.users) (hr : RefsOk db) :
    (userFavRows db uid = [] → readFavourite uid db = HResult.err (noFavouritesError uid)) ∧
    (userFavRows db uid ≠ [] →
      readFavourite uid db =
        HResult.ok 200 (some (Body.userPokemons (joinFavs db.pokemons uid db.favourites)))) := by
  cases hfu : db.users.find? (fun u => u == uid) with
  | none =>
    exfalso
    have h := List.find?_eq_none.mp hfu uid hu
    simp at h
  | some w =>
    constructor
    · intro hnil
      simp [readFavourite, hfu, joinFavs_eq_nil db.pokemons uid db.favourites hnil]
    · intro hne
      cases hj : joinFavs db.pokemons uid db.favourites with
      | nil =>
        exfalso
        have hlen := length_joinFavs db.pokemons uid db.favourites hr
        rw [hj] at hlen
        have h0 := hlen.symm
        rw [List.length_nil] at h0
        exact hne (List.length_eq_zero.mp h0)
      | cons s ss =>
        simp [readFavourite, hfu, hj]

theorem readFavourite_C4_empty_is_error_witness :
    (userFavRows ⟨[7], [⟨25, "Pikachu"⟩], []⟩ 7 = [] →
      readFavourite 7 ⟨[7], [⟨25, "Pikachu"⟩], []⟩ = HResult.err (noFavouritesError 7)) ∧
    (userFavRows ⟨[7], [⟨25, "Pikachu"⟩], []⟩ 7 ≠ [] →
      readFavourite 7 ⟨[7], [⟨25, "Pikachu"⟩], []⟩ =
        HResult.ok 200 (some (Body.userPokemons
          (joinFavs [⟨25, "Pikachu"⟩] 7 [])))) :=
  readFavourite_C4_empty_is_error 7 ⟨[7], [⟨25, "Pikachu"⟩], []⟩ (by decide)
    (fun f hf => absurd hf (by simp))

/-! ### Round-trip lemmas for add followed by remove -/

theorem createFavourite_not_yet (uid pid : Nat) (p : Pokemon) {db : DB}
    (hpk : findPokemonByPk db pid = some p) (hf : findFavourite db uid pid = none) :
    createFavourite uid pid db =
      (HResult.ok 201 (some (Body.favData ⟨uid, pid⟩)),
        { db with favourites := db.favourites ++ [⟨uid, pid⟩] }) := by
  simp [createFavourite, hpk, hf]

theorem findFavourite_after_append {db : DB} {uid pid : Nat}
    (hf : findFavourite db uid pid = none) :
    findFavourite { db with favourites := db.favourites ++ [⟨uid, pid⟩] } uid pid =
      some ⟨uid, pid⟩ := by
  unfold findFavourite
  rw [show ({ db with favourites := db.favourites ++ [⟨uid, pid⟩] } : DB).favourites
        = db.favourites ++ [⟨uid, pid⟩] from rfl]
  rw [find?_append_of_none _ hf]
  simp [List.find?_cons, favMatches]

theorem removeFirst_append_singleton {p : α → Bool} {l : List α} {y : α}
    (h : ∀ x ∈ l, ¬p x = true) (hy : p y = true) :
    removeFirst p (l ++ [y]) = l := by
  induction l with
  | nil =>
    rw [List.nil_append]
    unfold removeFirst
    rw [if_pos hy]
  | cons x xs ih =>
    have hx : p x = false :=
      Bool.eq_false_iff.mpr (h x (List.mem_cons_self x xs))
    rw [List.cons_append]
    unfold removeFirst
    rw [if_neg (by simp [hx])]
    rw [ih (fun g hg => h g (List.mem_cons_of_mem x hg))]

/-! ### C7: add then list contains the pokemon exactly once -/

/-- C7: for a user present in the users table and an existing catalog entry
pid not yet favourited by the user, createFavourite followed by readFavourite
yields a 200 response whose list contains the summary of that catalog entry
exactly once. -/
theorem favourites_C7_add_then_list (uid pid : Nat) (p : Pokemon) (db : DB)
    (hu : uid ∈ db.users)
    (hpk : findPokemonByPk db pid = some p)
    (hf : findFavourite db uid pid = none) :
    ∃ ps, readFavourite uid (createFavourite uid pid db).2 =
        HResult.ok 200 (some (Body.userPokemons ps)) ∧
      countOcc ⟨p.id, p.name⟩ ps = 1 := by
  rw [createFavourite_not_yet uid pid p hpk hf]
  have hcount : countOcc ⟨p.id, p.name⟩
      (joinFavs db.pokemons uid (db.favourites ++ [⟨uid, pid⟩])) = 1 := by
    rw [countOcc_joinFavs db.pokemons uid pid p hpk]
    rw [List.filter_append, filter_eq_nil_of_find?_none hf]
    simp [favMatches]
  cases hfu : db.users.find? (fun u => u == uid) with
  | none =>
    exfalso
    have h := List.find?_eq_none.mp hfu uid hu
    simp at h
  | some w =>
    refine ⟨joinFavs db.pokemons uid (db.favourites ++ [⟨uid, pid⟩]), ?_, hcount⟩
    cases hj : joinFavs db.pokemons uid (db.favourites ++ [⟨uid, pid⟩]) with
    | nil =>
      exfalso
      rw [hj] at hcount
      simp [countOcc] at hcount
    | cons s ss =>
      simp [readFavourite, hfu, hj]

theorem favourites_C7_add_then_list_witness :
    ∃ ps, readFavourite 7 (createFavourite 7 25 ⟨[7], [⟨25, "Pikachu"⟩], [⟨7, 3⟩]⟩).2 =
        HResult.ok 200 (some (Body.userPokemons ps)) ∧
      countOcc ⟨25, "Pikachu"⟩ ps = 1 :=
  favourites_C7_add_then_list 7 25 ⟨25, "Pikachu"⟩ ⟨[7], [⟨25, "Pikachu"⟩], [⟨7, 3⟩]⟩
    (by decide) (by decide) (by decide)

/-! ### C8: add then remove then list - the pokemon is absent -/

/-- C8: for an existing catalog entry pid not yet favourited by the user,
createFavourite followed by deleteFavourite restores the store exactly; a
subsequent readFavourite that answers 200 lists the catalog entry zero times,
and when the pair was the user's only favourite, readFavourite answers the
404 no-favourites error. -/
theorem favourites_C8_add_remove_list (uid pid : Nat) (p : Pokemon) (db : DB)
    (hpk : findPokemonByPk db pid = some p)
    (hf : findFavourite db uid pid = none) :
    (deleteFavourite uid pid (createFavourite uid pid db).2).2 = db ∧
    (∀ ps, readFavourite uid (deleteFavourite uid pid (createFavourite uid pid db).2).2 =
        HResult.ok 200 (some (Body.userPokemons ps)) →
      countOcc ⟨p.id, p.name⟩ ps = 0) ∧
    (userFavRows db uid = [] → uid ∈ db.users →
      readFavourite uid (deleteFavourite uid pid (createFavourite uid pid db).2).2 =
        HResult.err (noFavouritesError uid)) := by
  have hround : (deleteFavourite uid pid (createFavourite uid pid db).2).2 = db := by
    rw [createFavourite_not_yet uid pid p hpk hf]
    unfold deleteFavourite
    rw [findFavourite_after_append hf]
    rw [show ({ db with favourites := db.favourites ++ [⟨uid, pid⟩] } : DB).favourites
          = db.favourites ++ [⟨uid, pid⟩] from rfl]
    rw [removeFirst_append_singleton (List.find?_eq_none.mp hf) (by simp [favMatches])]
  refine ⟨hround, ?_, ?_⟩
  · intro ps hps
    rw [hround] at hps
    cases hfu : db.users.find? (fun u => u == uid) with
    | none =>
      rw [show readFavourite uid db
            = HResult.thrown "TypeError: Cannot read properties of null (reading pokemons)" by
          simp [readFavourite, hfu]] at hps
      exact absurd hps (by simp)
    | some w =>
      cases hj : joinFavs db.pokemons uid db.favourites with
      | nil =>
        rw [show readFavourite uid db = HResult.err (noFavouritesError uid) by
            simp [readFavourite, hfu, hj]] at hps
        exact absurd hps (by simp)
      | cons s ss =>
        rw [show readFavourite uid db
              = HResult.ok 200 (some (Body.userPokemons (s :: ss))) by
            simp [readFavourite, hfu, hj]] at hps
        have hps' : ps = s :: ss := by
          have h := hps
          simp at h
          exact h.symm
        rw [hps', ← hj, countOcc_joinFavs db.pokemons uid pid p hpk,
          filter_eq_nil_of_find?_none hf]
        rfl
  · intro hnil hu
    rw [hround]
    cases hfu : db.users.find? (fun u => u == uid) with
    | none =>
      exfalso
      have h := List.find?_eq_none.mp hfu uid hu
      simp at h
    | some w =>
      simp [readFavourite, hfu, joinFavs_eq_nil db.pokemons uid db.favourites hnil]

theorem favourites_C8_add_remove_list_witness :
    (deleteFavourite 7 25 (createFavourite 7 25 ⟨[7], [⟨25, "Pikachu"⟩], []⟩).2).2 =
        ⟨[7], [⟨25, "Pikachu"⟩], []⟩ ∧
    (∀ ps, readFavourite 7
          (deleteFavourite 7 25 (createFavourite 7 25 ⟨[7], [⟨25, "Pikachu"⟩], []⟩).2).2 =
        HResult.ok 200 (some (Body.userPokemons ps)) →
      countOcc ⟨25, "Pikachu"⟩ ps = 0) ∧
    (userFavRows ⟨[7], [⟨25, "Pikachu"⟩], []⟩ 7 = [] → 7 ∈ ([7] : List Nat) →
      readFavourite 7
          (deleteFavourite 7 25 (createFavourite 7 25 ⟨[7], [⟨25, "Pikachu"⟩], []⟩).2).2 =
        HResult.err (noFavouritesError 7)) :=
  favourites_C8_add_remove_list 7 25 ⟨25, "Pikachu"⟩ ⟨[7], [⟨25, "Pikachu"⟩], []⟩
    (by decide) (by decide)

/-! ### C10: listing throws when the acting user's row is absent -/

/-- C10: readFavourite never throws when the acting user's id is present in
the users table; when the id is absent, User.findByPk yields null, line 100
dereferences null.pokemons, and the handler throws a TypeError instead of
producing a structured error response. -/
theorem readFavourite_C10_null_deref (uid : Nat) (db : DB) :
    (uid ∈ db.users → ∀ m, readFavourite uid db ≠ HResult.thrown m) ∧
    (uid ∉ db.users →
      readFavourite uid db =
        HResult.thrown "TypeError: Cannot read properties of null (reading pokemons)") := by
  constructor
  · intro hu m
    cases hfu : db.users.find? (fun u => u == uid) with
    | none =>
      exfalso
      have h := List.find?_eq_none.mp hfu uid hu
      simp at h
    | some w =>
      unfold readFavourite
      rw [hfu]
      split_ifs <;> simp
  · intro hnu
    have hfu : db.users.find? (fun u => u == uid) = none := by
      rw [List.find?_eq_none]
      intro x hx
      simp only [beq_iff_eq]
      intro hxe
      exact hnu (hxe ▸ hx)
    unfold readFavourite
    rw [hfu]

theorem readFavourite_C10_null_deref_witness :
    readFavourite 5 ⟨[7], [⟨25, "Pikachu"⟩], [⟨7, 25⟩]⟩ =
      HResult.thrown "TypeError: Cannot read properties of null (reading pokemons)" :=
  (readFavourite_C10_null_deref 5 ⟨[7], [⟨25, "Pikachu"⟩], [⟨7, 25⟩]⟩).2 (by decide)

/-! ### C9: two concurrent createFavourite requests for the same pair

Each createFavourite invocation performs three awaited database operations
(Pokemon.findByPk, Favourite.findOne, Favourite.create); between two awaits
another request may run.  A request is modelled as a small program whose
atomic steps act on the shared store, and an interleaving as the schedule of
which request steps next. -/

/-- Terminal outcome of one racing createFavourite request. -/
inductive ReqOutcome where
  | notFound
  | conflict
  | created
deriving DecidableEq

/-- Control point of one createFavourite request: before each of the three
awaited database operations, or completed. -/
inductive ReqPhase where
  | atPokemonCheck
  | atFindOne
  | atCreate
  | finished (o : ReqOutcome)
deriving DecidableEq

/-- Modelled from the spec: the favourites table carries a composite
uniqueness constraint on (user_id, pokemon_id) enforced by the underlying
relational store (the Sequelize model definition carrying the constraint is
not among the sources; only the controller is), so an insert finding a stored
row for the same pair fails, and the losing request observes a Conflict error
rather than a crash. -/
def constrainedInsert (uid pid : Nat) (db : DB) : Option DB :=
  match findFavourite db uid pid with
  | some _ => none
  | none => some { db with favourites := db.favourites ++ [⟨uid, pid⟩] }

/-- One atomic step of a racing createFavourite request, against the shared
store; a completed request stutters. -/
def reqStep (uid pid : Nat) : ReqPhase × DB → ReqPhase × DB
  | (ReqPhase.atPokemonCheck, db) =>
    match findPokemonByPk db pid with
    | none => (ReqPhase.finished ReqOutcome.notFound, db)
    | some _ => (ReqPhase.atFindOne, db)
  | (ReqPhase.atFindOne, db) =>
    match findFavourite db uid pid with
    | some _ => (ReqPhase.finished ReqOutcome.conflict, db)
    | none => (ReqPhase.atCreate, db)
  | (ReqPhase.atCreate, db) =>
    match constrainedInsert uid pid db with
    | none => (ReqPhase.finished ReqOutcome.conflict, db)
    | some db1 => (ReqPhase.finished ReqOutcome.created, db1)
  | (ReqPhase.finished o, db) => (ReqPhase.finished o, db)

/-- Iterated request steps. -/
def stepN (uid pid : Nat) : Nat → ReqPhase × DB → ReqPhase × DB
  | 0, s => s
  | n + 1, s => stepN uid pid n (reqStep uid pid s)

/-- Joint state of the two racing requests and the shared store. -/
structure SysState where
  r1 : ReqPhase
  r2 : ReqPhase
  db : DB
deriving DecidableEq

/-- One step of the interleaved system: true steps request 1, false request 2. -/
def sysStep (uid pid : Nat) (s : SysState) (which : Bool) : SysState :=
  if which then
    ⟨(reqStep uid pid (s.r1, s.db)).1, s.r2, (reqStep uid pid (s.r1, s.db)).2⟩
  else
    ⟨s.r1, (reqStep uid pid (s.r2, s.db)).1, (reqStep uid pid (s.r2, s.db)).2⟩

/-- Run a schedule of interleaved steps. -/
def runSched (uid pid : Nat) (s : SysState) : List Bool → SysState
  | [] => s
  | b :: bs => runSched uid pid (sysStep uid pid s b) bs

/-- Run both requests to completion (three steps suffice for each; completed
requests stutter). -/
def finishAll (uid pid : Nat) (s : SysState) : SysState :=
  runSched uid pid s [true, true, true, false, false, false]

/-- Final system state: run an arbitrary interleaving prefix, then let both
requests run to completion. -/
def raceResult (uid pid : Nat) (db : DB) (sched : List Bool) : SysState :=
  finishAll uid pid (runSched uid pid ⟨ReqPhase.atPokemonCheck, ReqPhase.atPokemonCheck, db⟩ sched)

/-- 1 when the request has completed by inserting a row, else 0. -/
def createdCount : ReqPhase → Nat
  | ReqPhase.finished ReqOutcome.created => 1
  | _ => 0

/-- Inductive invariant of the race: the catalog is untouched, the stored
rows for the pair are the initial ones plus one per completed insert, never
more than one in total, no request ends notFound, and a Conflict outcome
guarantees a stored row. -/
def RaceInv (uid pid : Nat) (db0 : DB) (s : SysState) : Prop :=
  s.db.pokemons = db0.pokemons ∧
  pairCount s.db uid pid = pairCount db0 uid pid + createdCount s.r1 + createdCount s.r2 ∧
  pairCount s.db uid pid ≤ 1 ∧
  s.r1 ≠ ReqPhase.finished ReqOutcome.notFound ∧
  s.r2 ≠ ReqPhase.finished ReqOutcome.notFound ∧
  ((s.r1 = ReqPhase.finished ReqOutcome.conflict ∨
      s.r2 = ReqPhase.finished ReqOutcome.conflict) →
    1 ≤ pairCount s.db uid pid)

theorem reqStep_pres (uid pid : Nat) (db0 : DB) (r : ReqPhase) (db : DB) (other : Nat)
    (hpk0 : (findPokemonByPk db0 pid).isSome)
    (hps : db.pokemons = db0.pokemons)
    (hcnt : pairCount db uid pid = pairCount db0 uid pid + createdCount r + other)
    (hle : pairCount db uid pid ≤ 1)
    (hnf : r ≠ ReqPhase.finished ReqOutcome.notFound)
    (hcf : r = ReqPhase.finished ReqOutcome.conflict → 1 ≤ pairCount db uid pid) :
    (reqStep uid pid (r, db)).2.pokemons = db0.pokemons ∧
    pairCount (reqStep uid pid (r, db)).2 uid pid =
      pairCount db0 uid pid + createdCount (reqStep uid pid (r, db)).1 + other ∧
    pairCount (reqStep uid pid (r, db)).2 uid pid ≤ 1 ∧
    (reqStep uid pid (r, db)).1 ≠ ReqPhase.finished ReqOutcome.notFound ∧
    ((reqStep uid pid (r, db)).1 = ReqPhase.finished ReqOutcome.conflict →
      1 ≤ pairCount (reqStep uid pid (r, db)).2 uid pid) ∧
    pairCount db uid pid ≤ pairCount (reqStep uid pid (r, db)).2 uid pid := by
  cases r with
  | atPokemonCheck =>
    have hpk : (findPokemonByPk db pid).isSome := by
      unfold findPokemonByPk at hpk0 ⊢
      rw [hps]
      exact hpk0
    obtain ⟨p, hp⟩ := Option.isSome_iff_exists.mp hpk
    simp only [reqStep, hp, createdCount] at hcnt ⊢
    exact ⟨hps, by omega, hle, by simp, by simp, le_refl _⟩
  | atFindOne =>
    cases hf : findFavourite db uid pid with
    | some f =>
      simp only [reqStep, hf, createdCount] at hcnt ⊢
      have h1 := one_le_pairCount_of_some hf
      exact ⟨hps, by omega, hle, by simp, fun _ => h1, le_refl _⟩
    | none =>
      simp only [reqStep, hf, createdCount] at hcnt ⊢
      exact ⟨hps, by omega, hle, by simp, by simp, le_refl _⟩
  | atCreate =>
    cases hf : findFavourite db uid pid with
    | some f =>
      simp only [reqStep, constrainedInsert, hf, createdCount] at hcnt ⊢
      have h1 := one_le_pairCount_of_some hf
      exact ⟨hps, by omega, hle, by simp, fun _ => h1, le_refl _⟩
    | none =>
      have h0 := pairCount_eq_zero_of_none hf
      have hap := pairCount_append db [⟨uid, pid⟩] uid pid
      have hone : (List.filter (favMatches uid pid) [⟨uid, pid⟩]).length = 1 := by
        simp [favMatches]
      simp only [reqStep, constrainedInsert, hf, createdCount] at hcnt ⊢
      refine ⟨hps, by omega, by omega, by simp, by simp, by omega⟩
  | finished o =>
    exact ⟨hps, hcnt, hle, hnf, hcf, le_refl _⟩

theorem raceInv_sysStep (uid pid : Nat) (db0 : DB) (s : SysState) (b : Bool)
    (hpk0 : (findPokemonByPk db0 pid).isSome)
    (h : RaceInv uid pid db0 s) : RaceInv uid pid db0 (sysStep uid pid s b) := by
  obtain ⟨hps, hcnt, hle, hnf1, hnf2, hcf⟩ := h
  cases b with
  | true =>
    obtain ⟨p1, p2, p3, p4, p5, p6⟩ :=
      reqStep_pres uid pid db0 s.r1 s.db (createdCount s.r2) hpk0 hps hcnt hle hnf1
        (fun hc => hcf (Or.inl hc))
    show RaceInv uid pid db0
      ⟨(reqStep uid pid (s.r1, s.db)).1, s.r2, (reqStep uid pid (s.r1, s.db)).2⟩
    refine ⟨p1, p2, p3, p4, hnf2, ?_⟩
    intro hc
    cases hc with
    | inl hc => exact p5 hc
    | inr hc => exact le_trans (hcf (Or.inr hc)) p6
  | false =>
    obtain ⟨p1, p2, p3, p4, p5, p6⟩ :=
      reqStep_pres uid pid db0 s.r2 s.db (createdCount s.r1) hpk0 hps (by omega) hle hnf2
        (fun hc => hcf (Or.inr hc))
    show RaceInv uid pid db0
      ⟨s.r1, (reqStep uid pid (s.r2, s.db)).1, (reqStep uid pid (s.r2, s.db)).2⟩
    refine ⟨p1, ?_, p3, hnf1, p4, ?_⟩
    · show pairCount (reqStep uid pid (s.r2, s.db)).2 uid pid =
        pairCount db0 uid pid + createdCount s.r1 +
          createdCount (reqStep uid pid (s.r2, s.db)).1
      omega
    intro hc
    cases hc with
    | inl hc => exact le_trans (hcf (Or.inl hc)) p6
    | inr hc => exact p5 hc

theorem raceInv_runSched (uid pid : Nat) (db0 : DB) (sched : List Bool)
    (hpk0 : (findPokemonByPk db0 pid).isSome) :
    ∀ s, RaceInv uid pid db0 s → RaceInv uid pid db0 (runSched uid pid s sched) := by
  induction sched with
  | nil => exact fun s h => h
  | cons b bs ih => exact fun s h => ih _ (raceInv_sysStep uid pid db0 s b hpk0 h)

theorem stepN3_finished (uid pid : Nat) (r : ReqPhase) (db : DB) :
    ∃ o db1, stepN uid pid 3 (r, db) = (ReqPhase.finished o, db1) := by
  cases r with
  | finished o => exact ⟨o, db, rfl⟩
  | atCreate =>
    cases hf : findFavourite db uid pid with
    | some f =>
      refine ⟨ReqOutcome.conflict, db, ?_⟩
      simp [stepN, reqStep, constrainedInsert, hf]
    | none =>
      refine ⟨ReqOutcome.created, { db with favourites := db.favourites ++ [⟨uid, pid⟩] }, ?_⟩
      simp [stepN, reqStep, constrainedInsert, hf]
  | atFindOne =>
    cases hf : findFavourite db uid pid with
    | some f =>
      refine ⟨ReqOutcome.conflict, db, ?_⟩
      simp [stepN, reqStep, hf]
    | none =>
      refine ⟨ReqOutcome.created, { db with favourites := db.favourites ++ [⟨uid, pid⟩] }, ?_⟩
      simp [stepN, reqStep, constrainedInsert, hf]
  | atPokemonCheck =>
    cases hp : findPokemonByPk db pid with
    | none =>
      refine ⟨ReqOutcome.notFound, db, ?_⟩
      simp [stepN, reqStep, hp]
    | some p =>
      cases hf : findFavourite db uid pid with
      | some f =>
        refine ⟨ReqOutcome.conflict, db, ?_⟩
        simp [stepN, reqStep, hp, hf]
      | none =>
        refine ⟨ReqOutcome.created, { db with favourites := db.favourites ++ [⟨uid, pid⟩] }, ?_⟩
        simp [stepN, reqStep, constrainedInsert, hp, hf]

theorem finishAll_eq (uid pid : Nat) (s : SysState) (o1 o2 : ReqOutcome) (db1 db2 : DB)
    (h1 : stepN uid pid 3 (s.r1, s.db) = (ReqPhase.finished o1, db1))
    (h2 : stepN uid pid 3 (s.r2, db1) = (ReqPhase.finished o2, db2)) :
    finishAll uid pid s = ⟨ReqPhase.finished o1, ReqPhase.finished o2, db2⟩ := by
  have e1 : finishAll uid pid s =
      ⟨(stepN uid pid 3 (s.r1, s.db)).1,
        (stepN uid pid 3 (s.r2, (stepN uid pid 3 (s.r1, s.db)).2)).1,
        (stepN uid pid 3 (s.r2, (stepN uid pid 3 (s.r1, s.db)).2)).2⟩ := rfl
  rw [e1, h1]
  show (⟨ReqPhase.finished o1, (stepN uid pid 3 (s.r2, db1)).1,
      (stepN uid pid 3 (s.r2, db1)).2⟩ : SysState) = _
  rw [h2]

/-- C9: for every interleaving of two createFavourite requests for the same
(user, pokemon) pair, over a store satisfying the uniqueness invariant whose
catalog contains the entry, both requests terminate without crashing, exactly
one Favourite row for the pair is stored afterwards, and at least one of the
requests observes the Conflict error. -/
theorem favourites_C9_concurrent_add (uid pid : Nat) (db : DB) (sched : List Bool)
    (hpk : (findPokemonByPk db pid).isSome) (hinv : UniqueInv db) :
    ∃ o1 o2,
      (raceResult uid pid db sched).r1 = ReqPhase.finished o1 ∧
      (raceResult uid pid db sched).r2 = ReqPhase.finished o2 ∧
      pairCount (raceResult uid pid db sched).db uid pid = 1 ∧
      (o1 = ReqOutcome.conflict ∨ o2 = ReqOutcome.conflict) := by
  have hinv0 : RaceInv uid pid db ⟨ReqPhase.atPokemonCheck, ReqPhase.atPokemonCheck, db⟩ := by
    refine ⟨rfl, by simp [createdCount], hinv uid pid, by simp, by simp, ?_⟩
    intro hc
    cases hc with
    | inl h => exact absurd h (by simp)
    | inr h => exact absurd h (by simp)
  have hmid : RaceInv uid pid db
      (runSched uid pid ⟨ReqPhase.atPokemonCheck, ReqPhase.atPokemonCheck, db⟩ sched) :=
    raceInv_runSched uid pid db sched hpk _ hinv0
  set smid := runSched uid pid ⟨ReqPhase.atPokemonCheck, ReqPhase.atPokemonCheck, db⟩ sched
    with hsmid
  have hfin : RaceInv uid pid db (finishAll uid pid smid) :=
    raceInv_runSched uid pid db [true, true, true, false, false, false] hpk smid hmid
  obtain ⟨o1, db1, h1⟩ := stepN3_finished uid pid smid.r1 smid.db
  obtain ⟨o2, db2, h2⟩ := stepN3_finished uid pid smid.r2 db1
  have hstate : finishAll uid pid smid = ⟨ReqPhase.finished o1, ReqPhase.finished o2, db2⟩ :=
    finishAll_eq uid pid smid o1 o2 db1 db2 h1 h2
  have hgoal : raceResult uid pid db sched = finishAll uid pid smid := rfl
  rw [hgoal, hstate]
  rw [hstate] at hfin
  obtain ⟨hp1, hcnt, hle, hnf1, hnf2, hcf⟩ := hfin
  simp only at hcnt hle hcf hnf1 hnf2
  cases o1 with
  | notFound => exact absurd rfl hnf1
  | conflict =>
    have hc := hcf (Or.inl rfl)
    exact ⟨_, _, rfl, rfl, Nat.le_antisymm hle hc, Or.inl rfl⟩
  | created =>
    cases o2 with
    | notFound => exact absurd rfl hnf2
    | conflict =>
      have hc := hcf (Or.inr rfl)
      exact ⟨_, _, rfl, rfl, Nat.le_antisymm hle hc, Or.inr rfl⟩
    | created =>
      exfalso
      simp only [createdCount] at hcnt
      omega

theorem favourites_C9_concurrent_add_witness :
    ∃ o1 o2,
      (raceResult 7 25 ⟨[7], [⟨25, "Pikachu"⟩], []⟩ [true, false]).r1 =
        ReqPhase.finished o1 ∧
      (raceResult 7 25 ⟨[7], [⟨25, "Pikachu"⟩], []⟩ [true, false]).r2 =
        ReqPhase.finished o2 ∧
      pairCount (raceResult 7 25 ⟨[7], [⟨25, "Pikachu"⟩], []⟩ [true, false]).db 7 25 = 1 ∧
      (o1 = ReqOutcome.conflict ∨ o2 = ReqOutcome.conflict) :=
  favourites_C9_concurrent_add 7 25 ⟨[7], [⟨25, "Pikachu"⟩], []⟩ [true, false]
    (by decide) (fun u p => by simp [pairCount])

end Pokedex
